import Mathlib

set_option linter.unusedVariables false

namespace TschSlotOp

/-! Shallow embedding of the TSCH slot-operation core
(`core/net/mac/tsch/tsch-slot-operation.c`).  Machine timer values
(`rtimer_clock_t`) are natural numbers below a modulus `N = 2 ^ W`;
wrap-around arithmetic is written explicitly with `% N`.  Signed 32-bit
quantities (`int32_t`) are modelled as `Int`.  The embedded preprocessor
configuration is: `GUARD_BEACON` disabled, `CCA_ENABLED` disabled,
`LLSEC802154_ENABLED` disabled, `TSCH_HW_FRAME_FILTERING` disabled.
External collaborators (radio driver, schedule store, neighbor queues,
frame parsing, adaptive timesync) are oracles passed as explicit inputs,
and their invocations are recorded in the result records. -/

/-- C-style reduction of a signed value into the range of an `N`-valued
machine word, as happens when an `int32_t` is added to an unsigned
`rtimer_clock_t`. -/
def wrapU (N : Nat) (x : Int) : Nat := (x % (N : Int)).toNat

/-- Source `check_timer_miss` (lines 261-278): whether the instant
`ref_time + offset` has already passed at instant `now`, on a wrapping
timer of modulus `N`, assuming at most one wrap between `ref_time` and
`now`. -/
def check_timer_miss (N ref_time offset now : Nat) : Bool :=
  let target := (ref_time + offset) % N
  let now_has_overflowed := decide (now < ref_time)
  let target_has_overflowed := decide (target < ref_time)
  if now_has_overflowed = target_has_overflowed then
    decide (target ≤ now)
  else
    now_has_overflowed

/-- Outcome of `tsch_schedule_slot_operation`: the returned flag and the
absolute instant passed to `rtimer_set` when it was invoked. -/
structure ScheduleOutcome where
  returned : Bool
  armedAt : Option Nat
deriving Repr, DecidableEq

/-- Source `tsch_schedule_slot_operation` (lines 283-311), with the
result of the external `rtimer_set` supplied as the oracle
`rtimerSetOk`.  `guard` is `RTIMER_GUARD`; the C expression
`offset - RTIMER_GUARD` is an unsigned subtraction and wraps, hence
`(offset + N - guard) % N`. -/
def tsch_schedule_slot_operation (N guard ref_time offset now : Nat)
    (rtimerSetOk : Bool) : ScheduleOutcome :=
  let missed := check_timer_miss N ref_time ((offset + N - guard) % N) now
  if missed then
    { returned := false, armedAt := none }
  else
    { returned := rtimerSetOk, armedAt := some ((ref_time + offset) % N) }

/-- State of the TSCH lock (globals `tsch_locked`,
`tsch_lock_requested`, lines 143-145). -/
structure LockState where
  locked : Bool
  lockRequested : Bool
deriving Repr, DecidableEq

/-- Source `tsch_get_lock` (lines 196-235).  `lockedAfterWait` is the
value of `tsch_locked` observed after busy-waiting for the end of the
current slot operation (a peer acquirer may have taken the lock
meanwhile).  Returns the C return value together with the final lock
state. -/
def tsch_get_lock (lockedAfterWait : Bool) (s : LockState) : Bool × LockState :=
  if s.locked then
    (false, s)
  else
    let s1 : LockState := { locked := lockedAfterWait, lockRequested := true }
    if s1.locked then
      (false, s1)
    else
      (true, { locked := true, lockRequested := false })

/-- Slot-skip condition at the top of the executor loop (line 1157):
the slot is elided when there is no current link or a lock request is
pending. -/
def executor_skips_slot (currentLinkIsNull lockRequested : Bool) : Bool :=
  currentLinkIsNull || lockRequested

/-- C3: for machine values `ref_time, offset, now < 2 ^ W`,
`check_timer_miss` returns true iff the wrapped difference
`(now - ref_time) mod 2 ^ W` is at least `offset`, i.e. iff the instant
`ref_time + offset` lies at or before `now`, with at most one wrap of
the `W`-bit timer between `ref_time` and `now`. -/
theorem check_timer_miss_iff_wrapped_diff (W ref_time offset now : Nat)
    (href : ref_time < 2 ^ W) (hoff : offset < 2 ^ W) (hnow : now < 2 ^ W) :
    check_timer_miss (2 ^ W) ref_time offset now = true ↔
      offset ≤ (now + 2 ^ W - ref_time) % 2 ^ W := by
  have hN : 0 < 2 ^ W := pow_pos (by norm_num) W
  have hB : (now + 2 ^ W - ref_time) % 2 ^ W =
      if now < ref_time then now + 2 ^ W - ref_time else now - ref_time := by
    by_cases h : now < ref_time
    · rw [if_pos h, Nat.mod_eq_of_lt (by omega)]
    · rw [if_neg h]
      have hrw : now + 2 ^ W - ref_time = (now - ref_time) + 2 ^ W := by omega
      rw [hrw, Nat.add_mod_right, Nat.mod_eq_of_lt (by omega)]
  have hA : (ref_time + offset) % 2 ^ W =
      if ref_time + offset < 2 ^ W then ref_time + offset
      else ref_time + offset - 2 ^ W := by
    by_cases h : ref_time + offset < 2 ^ W
    · rw [if_pos h, Nat.mod_eq_of_lt h]
    · rw [if_neg h, Nat.mod_eq_sub_mod (by omega), Nat.mod_eq_of_lt (by omega)]
  simp only [check_timer_miss]
  rw [hA, hB]
  by_cases h1 : now < ref_time <;> by_cases h2 : ref_time + offset < 2 ^ W
  · have ht : ¬(ref_time + offset < ref_time) := by omega
    simp [h1, h2, ht]
    omega
  · have ht : ref_time + offset - 2 ^ W < ref_time := by omega
    simp [h1, h2, ht]
    omega
  · have ht : ¬(ref_time + offset < ref_time) := by omega
    simp [h1, h2, ht]
    omega
  · have ht : ref_time + offset - 2 ^ W < ref_time := by omega
    simp [h1, h2, ht]
    omega

/-- C3 witness: a concrete instantiation on a 16-bit timer. -/
theorem check_timer_miss_iff_wrapped_diff_witness :
    check_timer_miss (2 ^ 16) 100 50 200 = true ↔
      50 ≤ (200 + 2 ^ 16 - 100) % 2 ^ 16 :=
  check_timer_miss_iff_wrapped_diff 16 100 50 200 (by norm_num) (by norm_num)
    (by norm_num)

/-- C9: `tsch_schedule_slot_operation` returns false and arms no timer
when `check_timer_miss ref_time (offset - RTIMER_GUARD) now` holds
(missed deadline); otherwise, when the external `rtimer_set` succeeds,
it arms the hardware timer at the absolute instant `ref_time + offset`
and returns true. -/
theorem schedule_slot_operation_missed_or_armed (N guard ref_time offset now : Nat)
    (setOk : Bool) :
    (check_timer_miss N ref_time ((offset + N - guard) % N) now = true →
      tsch_schedule_slot_operation N guard ref_time offset now setOk =
        { returned := false, armedAt := none }) ∧
    (check_timer_miss N ref_time ((offset + N - guard) % N) now = false →
      setOk = true →
      tsch_schedule_slot_operation N guard ref_time offset now setOk =
        { returned := true, armedAt := some ((ref_time + offset) % N) }) := by
  constructor
  · intro h
    simp [tsch_schedule_slot_operation, h]
  · intro h hs
    simp [tsch_schedule_slot_operation, h, hs]

/-- C9 witness: a non-missed deadline on a 16-bit timer with
`RTIMER_GUARD = 2` arms the timer at the absolute target and returns
true. -/
theorem schedule_slot_operation_missed_or_armed_witness :
    tsch_schedule_slot_operation 65536 2 1000 500 1100 true =
      { returned := true, armedAt := some ((1000 + 500) % 65536) } :=
  (schedule_slot_operation_missed_or_armed 65536 2 1000 500 1100 true).2
    (by decide) rfl

/-- C10: when `tsch_get_lock` observes `tsch_locked` false at entry,
waits out the slot operation, and then finds `tsch_locked` true (taken
by a peer), it returns 0 and leaves `tsch_lock_requested` raised, so
the executor keeps eliding slots until a later successful acquisition
clears the flag. -/
theorem get_lock_failure_keeps_lock_requested (s : LockState)
    (lockedAfterWait : Bool) (hentry : s.locked = false)
    (hafter : lockedAfterWait = true) :
    (tsch_get_lock lockedAfterWait s).1 = false ∧
    (tsch_get_lock lockedAfterWait s).2.lockRequested = true ∧
    (∀ linkNull : Bool,
      executor_skips_slot linkNull (tsch_get_lock lockedAfterWait s).2.lockRequested
        = true) := by
  subst hafter
  simp [tsch_get_lock, hentry, executor_skips_slot]

/-- C10 witness: concrete failed acquisition starting from a free,
unrequested lock. -/
theorem get_lock_failure_keeps_lock_requested_witness :
    (tsch_get_lock true { locked := false, lockRequested := false }).1 = false ∧
    (tsch_get_lock true { locked := false, lockRequested := false }).2.lockRequested
      = true ∧
    (∀ linkNull : Bool,
      executor_skips_slot linkNull
        (tsch_get_lock true { locked := false, lockRequested := false }).2.lockRequested
        = true) :=
  get_lock_failure_keeps_lock_requested { locked := false, lockRequested := false }
    true rfl rfl

/-- Modelled from the spec: `US_TO_RTIMERTICKS` (platform rtimer header,
not part of this repository) converts a signed microsecond count into
rtimer ticks at `rtimerSecond` ticks per second, rounding to nearest. -/
def us_to_rtimerticks (rtimerSecond : Nat) (us : Int) : Int :=
  if 0 ≤ us then (us * rtimerSecond + 500000) / 1000000
  else -((-us * rtimerSecond + 500000) / 1000000)

/-- `SYNC_IE_BOUND` (line 103): received drift corrections are truncated
to `US_TO_RTIMERTICKS(TSCH_DEFAULT_TS_RX_WAIT / 4)`, one quarter of the
RX-wait window (`rxWaitUs` microseconds). -/
def sync_ie_bound (rtimerSecond rxWaitUs : Nat) : Int :=
  us_to_rtimerticks rtimerSecond ((rxWaitUs : Int) / 4)

/-- Clamp of the E-ACK time correction to `±bound` (lines 754-760). -/
def sync_clamp (bound r : Int) : Int :=
  if r > bound then bound
  else if r < -bound then -bound
  else r

/-- MAC transmission status (`MAC_TX_OK`, `MAC_TX_NOACK`, `MAC_TX_ERR`,
`MAC_TX_ERR_FATAL`, `MAC_TX_COLLISION`). -/
inductive MacTxStatus where
  | ok
  | noack
  | err
  | errFatal
  | collision
deriving Repr, DecidableEq

/-- Effects of `update_neighbor_state` on the neighbor queue and its
CSMA backoff state, plus the returned `in_queue` flag. -/
structure NbrUpdate where
  in_queue : Bool
  removedFromQueue : Bool
  backoffReset : Bool
  backoffInc : Bool
deriving Repr, DecidableEq

/-- Source `update_neighbor_state` (lines 361-401).  `isBroadcast` is
`n->is_broadcast`, `transmissions` is `p->transmissions` (already
incremented by the caller), `queueEmptyAfterRemoval` is the external
`tsch_queue_is_empty(n)` observed after the removal on success. -/
def update_neighbor_state (maxFrameRetries : Nat) (isSharedLink isBroadcast : Bool)
    (queueEmptyAfterRemoval : Bool) (transmissions : Nat) (mac_tx_status : MacTxStatus) :
    NbrUpdate :=
  let is_unicast := !isBroadcast
  if mac_tx_status = MacTxStatus.ok then
    { in_queue := false
      removedFromQueue := true
      backoffReset := is_unicast && (isSharedLink || queueEmptyAfterRemoval)
      backoffInc := false }
  else
    let dropped := decide (transmissions ≥ maxFrameRetries + 1)
    { in_queue := !dropped
      removedFromQueue := dropped
      backoffReset := false
      backoffInc := is_unicast && isSharedLink }

/-- Globals read and written by the TX slot: `tsch_current_asn`,
`last_sync_asn`, `drift_correction`, `is_drift_correction_used`,
`current_packet->transmissions`, and the `static` local
`mac_tx_status`, whose stale value survives into slots that assign it
on no path. -/
structure TxGlobals where
  asn : Nat
  lastSyncAsn : Nat
  driftCorrection : Int
  driftUsed : Bool
  transmissions : Nat
  prevMacStatus : MacTxStatus
deriving Repr, DecidableEq

/-- Per-slot inputs of `tsch_tx_slot`, i.e. the behavior of the external
collaborators during this slot.  `ringFull` is
`ringbufindex_peek_put(&dequeued_ringbuf) == -1`; `packetPtrNull` is
`current_packet == NULL || current_packet->qb == NULL`; `ackLen` is the
value returned by `NETSTACK_RADIO.read` for the ACK; `eackParseOk` is
`tsch_packet_parse_eack(...) != 0`; `eackTimeCorrectionUs` is
`ack_ies.ie_time_correction`. -/
structure TxSlotIn where
  ringFull : Bool
  packetPtrNull : Bool
  isEbPacket : Bool
  updateEbOk : Bool
  prepareOk : Bool
  radioTxOk : Bool
  isBroadcast : Bool
  ackLen : Nat
  eackParseOk : Bool
  isTimeSource : Bool
  eackTimeCorrectionUs : Int
  isSharedLink : Bool
  queueEmptyAfterRemoval : Bool
deriving Repr, DecidableEq

/-- Outcome of the ACK-handling section of the TX slot. -/
structure AckOutcome where
  macStatus : MacTxStatus
  driftCorrection : Int
  driftUsed : Bool
  lastSyncAsn : Nat
  timesyncArg : Option (Int × Int)
  keepaliveScheduled : Bool
  truncationLogged : Bool
deriving Repr, DecidableEq

/-- An ACK outcome that leaves the sync globals untouched and performs
no timesync call. -/
def ackUnchanged (st : MacTxStatus) (g : TxGlobals) : AckOutcome :=
  { macStatus := st
    driftCorrection := g.driftCorrection
    driftUsed := g.driftUsed
    lastSyncAsn := g.lastSyncAsn
    timesyncArg := none
    keepaliveScheduled := false
    truncationLogged := false }

/-- Source lines 721-779: read and parse the enhanced ACK and, when it
came from a time-source neighbor, run the Sync-IE drift extraction.
The raw microsecond correction is converted to ticks and clamped to
`±syncBound` (lines 752-760), but line 763 then overwrites
`drift_correction` with 0 (comment: drift is corrected only via
beacons, to enable the guard-beacon evaluation); the truncation log
compares this overwritten value with the raw one. -/
def tx_ack_sub (syncBound : Int) (rtimerSecond : Nat) (g : TxGlobals) (i : TxSlotIn) :
    AckOutcome :=
  let is_time_source := decide (0 < i.ackLen) && i.isTimeSource
  let ack_len := if 0 < i.ackLen ∧ ¬(i.eackParseOk = true) then 0 else i.ackLen
  if ack_len ≠ 0 then
    if is_time_source then
      let eack_time_correction := us_to_rtimerticks rtimerSecond i.eackTimeCorrectionUs
      let since_last_timesync := (g.asn : Int) - (g.lastSyncAsn : Int)
      let clamped := sync_clamp syncBound eack_time_correction
      let drift_correction : Int := 0
      { macStatus := MacTxStatus.ok
        driftCorrection := drift_correction
        driftUsed := true
        lastSyncAsn := g.asn
        timesyncArg := some (since_last_timesync, drift_correction)
        keepaliveScheduled := true
        truncationLogged := decide (drift_correction ≠ eack_time_correction) }
    else
      ackUnchanged MacTxStatus.ok g
  else
    ackUnchanged MacTxStatus.noack g

/-- Observable outcome of one run of `tsch_tx_slot`: final values of
the globals it touches and the collaborator invocations it performed. -/
structure TxSlotOut where
  macStatus : MacTxStatus
  transmissions : Nat
  driftCorrection : Int
  driftUsed : Bool
  lastSyncAsn : Nat
  timesyncArg : Option (Int × Int)
  keepaliveScheduled : Bool
  truncationLogged : Bool
  prepareCalled : Bool
  transmitCalled : Bool
  ackReadCalled : Bool
  nbrUpdate : Option NbrUpdate
  ringPut : Bool
deriving Repr, DecidableEq

/-- Source `tsch_tx_slot` (lines 466-827) in the embedded
configuration (`GUARD_BEACON`, `CCA_ENABLED`, `LLSEC802154_ENABLED`,
`TSCH_HW_FRAME_FILTERING` all disabled).  If the dequeued ring is full
(`ringbufindex_peek_put` returned -1, line 493) the whole body is
skipped; otherwise the packet is prepared and transmitted, the ACK
section runs for successful unicast, `transmissions` is incremented,
the neighbor state is updated, and the packet is published to the
dequeued ring when it left its queue. -/
def tsch_tx_slot (maxFrameRetries : Nat) (syncBound : Int) (rtimerSecond : Nat)
    (g : TxGlobals) (i : TxSlotIn) : TxSlotOut :=
  if i.ringFull then
    { macStatus := g.prevMacStatus
      transmissions := g.transmissions
      driftCorrection := g.driftCorrection
      driftUsed := g.driftUsed
      lastSyncAsn := g.lastSyncAsn
      timesyncArg := none
      keepaliveScheduled := false
      truncationLogged := false
      prepareCalled := false
      transmitCalled := false
      ackReadCalled := false
      nbrUpdate := none
      ringPut := false }
  else
    let packet_ready := if i.isEbPacket then i.updateEbOk else true
    let ack : AckOutcome :=
      if i.packetPtrNull then
        ackUnchanged MacTxStatus.errFatal g
      else if packet_ready && i.prepareOk then
        if i.radioTxOk then
          if !i.isBroadcast then
            tx_ack_sub syncBound rtimerSecond g i
          else
            ackUnchanged MacTxStatus.ok g
        else
          ackUnchanged MacTxStatus.err g
      else
        ackUnchanged g.prevMacStatus g
    let transmissions1 := g.transmissions + 1
    let u := update_neighbor_state maxFrameRetries i.isSharedLink i.isBroadcast
      i.queueEmptyAfterRemoval transmissions1 ack.macStatus
    { macStatus := ack.macStatus
      transmissions := transmissions1
      driftCorrection := ack.driftCorrection
      driftUsed := ack.driftUsed
      lastSyncAsn := ack.lastSyncAsn
      timesyncArg := ack.timesyncArg
      keepaliveScheduled := ack.keepaliveScheduled
      truncationLogged := ack.truncationLogged
      prepareCalled := !i.packetPtrNull && packet_ready
      transmitCalled := !i.packetPtrNull && packet_ready && i.prepareOk
      ackReadCalled := !i.packetPtrNull && packet_ready && i.prepareOk &&
        i.radioTxOk && !i.isBroadcast
      nbrUpdate := some u
      ringPut := !u.in_queue }

/-- C5: `update_neighbor_state` removes the packet from its neighbor
queue iff the status is OK or the status is not OK and
`transmissions ≥ MAX_FRAME_RETRIES + 1`; for unicast, on success the
backoff is reset iff the link is shared or the queue is empty, and on
failure the backoff exponent is incremented (new window drawn) iff the
link is shared, non-shared failures leaving the backoff unchanged. -/
theorem update_neighbor_state_spec (maxFrameRetries : Nat)
    (isSharedLink isBroadcast queueEmptyAfterRemoval : Bool)
    (transmissions : Nat) (st : MacTxStatus) :
    ((update_neighbor_state maxFrameRetries isSharedLink isBroadcast
        queueEmptyAfterRemoval transmissions st).removedFromQueue = true ↔
      st = MacTxStatus.ok ∨
        (st ≠ MacTxStatus.ok ∧ maxFrameRetries + 1 ≤ transmissions)) ∧
    ((update_neighbor_state maxFrameRetries isSharedLink isBroadcast
        queueEmptyAfterRemoval transmissions st).in_queue =
      !(update_neighbor_state maxFrameRetries isSharedLink isBroadcast
        queueEmptyAfterRemoval transmissions st).removedFromQueue) ∧
    (isBroadcast = false → st = MacTxStatus.ok →
      ((update_neighbor_state maxFrameRetries isSharedLink isBroadcast
          queueEmptyAfterRemoval transmissions st).backoffReset = true ↔
        (isSharedLink = true ∨ queueEmptyAfterRemoval = true)) ∧
      (update_neighbor_state maxFrameRetries isSharedLink isBroadcast
        queueEmptyAfterRemoval transmissions st).backoffInc = false) ∧
    (isBroadcast = false → st ≠ MacTxStatus.ok →
      ((update_neighbor_state maxFrameRetries isSharedLink isBroadcast
          queueEmptyAfterRemoval transmissions st).backoffInc = true ↔
        isSharedLink = true) ∧
      (update_neighbor_state maxFrameRetries isSharedLink isBroadcast
        queueEmptyAfterRemoval transmissions st).backoffReset = false) ∧
    (isBroadcast = true →
      (update_neighbor_state maxFrameRetries isSharedLink isBroadcast
        queueEmptyAfterRemoval transmissions st).backoffReset = false ∧
      (update_neighbor_state maxFrameRetries isSharedLink isBroadcast
        queueEmptyAfterRemoval transmissions st).backoffInc = false) := by
  cases st <;> cases isBroadcast <;> cases isSharedLink <;>
    cases queueEmptyAfterRemoval <;>
    simp [update_neighbor_state]

/-- C5 witness: a failed (NOACK) unicast transmission on a shared link
with retries exhausted is removed from the queue and increments the
backoff. -/
theorem update_neighbor_state_spec_witness :
    (update_neighbor_state 7 true false true 8 MacTxStatus.noack).removedFromQueue
      = true ∧
    (update_neighbor_state 7 true false true 8 MacTxStatus.noack).backoffInc
      = true := by
  have h := update_neighbor_state_spec 7 true false true 8 MacTxStatus.noack
  exact ⟨h.1.mpr (Or.inr ⟨by decide, by decide⟩),
    ((h.2.2.2.1 rfl (by decide)).1).mpr rfl⟩

/-- C6: when the dequeued ring is full at peek-put, the TX
sub-procedure aborts with no state change: no radio operation is
issued, the transmissions counter does not move, no neighbor-queue or
backoff mutation occurs, and nothing is published to the ring. -/
theorem tx_slot_ring_full_no_state_change (maxFrameRetries : Nat) (syncBound : Int)
    (rtimerSecond : Nat) (g : TxGlobals) (i : TxSlotIn)
    (h : i.ringFull = true) :
    tsch_tx_slot maxFrameRetries syncBound rtimerSecond g i =
      { macStatus := g.prevMacStatus
        transmissions := g.transmissions
        driftCorrection := g.driftCorrection
        driftUsed := g.driftUsed
        lastSyncAsn := g.lastSyncAsn
        timesyncArg := none
        keepaliveScheduled := false
        truncationLogged := false
        prepareCalled := false
        transmitCalled := false
        ackReadCalled := false
        nbrUpdate := none
        ringPut := false } := by
  simp [tsch_tx_slot, h]

/-- Concrete globals for the TX-slot scenarios: ASN 1000, last sync at
ASN 900, no pending drift, no prior transmissions. -/
def txG : TxGlobals :=
  { asn := 1000
    lastSyncAsn := 900
    driftCorrection := 0
    driftUsed := false
    transmissions := 0
    prevMacStatus := MacTxStatus.noack }

/-- Concrete TX-slot input: dedicated unicast transmission to a
time-source neighbor, successful at every stage, whose E-ACK carries a
time correction of 120 microseconds. -/
def txAck120 : TxSlotIn :=
  { ringFull := false
    packetPtrNull := false
    isEbPacket := false
    updateEbOk := true
    prepareOk := true
    radioTxOk := true
    isBroadcast := false
    ackLen := 10
    eackParseOk := true
    isTimeSource := true
    eackTimeCorrectionUs := 120
    isSharedLink := false
    queueEmptyAfterRemoval := true }

/-- The same TX-slot input with the dequeued ring full. -/
def txRingFull : TxSlotIn :=
  { txAck120 with ringFull := true }

/-- C6 witness: the full-ring abort at the concrete input. -/
theorem tx_slot_ring_full_no_state_change_witness :
    tsch_tx_slot 7 (sync_ie_bound 32768 2200) 32768 txG txRingFull =
      { macStatus := MacTxStatus.noack
        transmissions := 0
        driftCorrection := 0
        driftUsed := false
        lastSyncAsn := 900
        timesyncArg := none
        keepaliveScheduled := false
        truncationLogged := false
        prepareCalled := false
        transmitCalled := false
        ackReadCalled := false
        nbrUpdate := none
        ringPut := false } :=
  tx_slot_ring_full_no_state_change 7 (sync_ie_bound 32768 2200) 32768 txG
    txRingFull rfl

/-- C1 counterexample: on the unicast TX slot with an authenticated
E-ACK from a time source carrying a 120-microsecond correction (4 ticks
at 32768 ticks per second), the applied drift correction is 0, not
`clamp(US_TO_TICKS(120), SYNC_IE_BOUND) = 4`, and its sign does not
match the sign of the raw correction: line 763 overwrites the clamped
value with 0. -/
theorem tx_ack_drift_claim_false :
    ¬((tsch_tx_slot 7 (sync_ie_bound 32768 2200) 32768 txG txAck120).driftCorrection
        = sync_clamp (sync_ie_bound 32768 2200) (us_to_rtimerticks 32768 120) ∧
      Int.sign
        (tsch_tx_slot 7 (sync_ie_bound 32768 2200) 32768 txG txAck120).driftCorrection
        = Int.sign (us_to_rtimerticks 32768 120)) := by
  decide

/-- C1 amended: on a unicast TX slot that receives a valid,
authenticated enhanced ACK from a time-source neighbor, the code clamps
the tick-converted correction to `±SYNC_IE_BOUND` but then discards it
(line 763): the applied drift correction is always 0 (trivially within
the bound), `tsch_timesync_update` receives 0 together with the slot
count since the last sync, and `last_sync_asn` is set to the current
ASN. -/
theorem tx_ack_drift_amended (maxFrameRetries : Nat) (syncBound : Int)
    (rtimerSecond : Nat) (g : TxGlobals) (i : TxSlotIn)
    (h0 : i.ringFull = false) (h1 : i.packetPtrNull = false)
    (h2 : i.isEbPacket = false) (h3 : i.prepareOk = true)
    (h4 : i.radioTxOk = true) (h5 : i.isBroadcast = false)
    (h6 : 0 < i.ackLen) (h7 : i.eackParseOk = true)
    (h8 : i.isTimeSource = true) :
    (tsch_tx_slot maxFrameRetries syncBound rtimerSecond g i).macStatus
      = MacTxStatus.ok ∧
    (tsch_tx_slot maxFrameRetries syncBound rtimerSecond g i).driftCorrection = 0 ∧
    (tsch_tx_slot maxFrameRetries syncBound rtimerSecond g i).driftUsed = true ∧
    (tsch_tx_slot maxFrameRetries syncBound rtimerSecond g i).lastSyncAsn = g.asn ∧
    (tsch_tx_slot maxFrameRetries syncBound rtimerSecond g i).timesyncArg
      = some ((g.asn : Int) - (g.lastSyncAsn : Int), 0) ∧
    (tsch_tx_slot maxFrameRetries syncBound rtimerSecond g i).keepaliveScheduled
      = true := by
  have hlen : ¬(i.ackLen = 0) := by omega
  simp [tsch_tx_slot, tx_ack_sub, ackUnchanged, h0, h1, h2, h3, h4, h5, h6, h7,
    h8, hlen]

/-- C1 witness for the amended claim: at the concrete 120-microsecond
scenario the applied drift is 0, the timesync call receives the 100
slots elapsed since the last sync together with 0, and `last_sync_asn`
becomes 1000. -/
theorem tx_ack_drift_amended_witness :
    (tsch_tx_slot 7 (sync_ie_bound 32768 2200) 32768 txG txAck120).macStatus
      = MacTxStatus.ok ∧
    (tsch_tx_slot 7 (sync_ie_bound 32768 2200) 32768 txG txAck120).driftCorrection
      = 0 ∧
    (tsch_tx_slot 7 (sync_ie_bound 32768 2200) 32768 txG txAck120).driftUsed
      = true ∧
    (tsch_tx_slot 7 (sync_ie_bound 32768 2200) 32768 txG txAck120).lastSyncAsn
      = 1000 ∧
    (tsch_tx_slot 7 (sync_ie_bound 32768 2200) 32768 txG txAck120).timesyncArg
      = some (100, 0) ∧
    (tsch_tx_slot 7 (sync_ie_bound 32768 2200) 32768 txG
      txAck120).keepaliveScheduled = true := by
  have h := tx_ack_drift_amended 7 (sync_ie_bound 32768 2200) 32768 txG txAck120
    rfl rfl rfl rfl rfl rfl (by decide) rfl rfl
  simpa [txG] using h

/-- Jitter removal on the estimated drift
(`TSCH_TIMESYNC_REMOVE_JITTER`, lines 1001-1010): when enabled, drifts
within the measurement error collapse to 0 and larger drifts lose the
measurement error from their magnitude.  Whether it is enabled, and the
error value, come from configuration headers outside this repository,
so both stay parameters. -/
def jitter_clamp (removeJitter : Bool) (measurementError drift : Int) : Int :=
  if removeJitter then
    if |drift| ≤ measurementError then 0
    else if 0 < drift then drift - measurementError
    else drift + measurementError
  else drift

/-- Globals read and written by the RX slot: `tsch_current_asn`,
`last_sync_asn`, `drift_correction`, `is_drift_correction_used`, and the
`static` drop counter `input_queue_drop`. -/
structure RxGlobals where
  asn : Nat
  lastSyncAsn : Nat
  driftCorrection : Int
  driftUsed : Bool
  inputQueueDrop : Nat
deriving Repr, DecidableEq

/-- Per-slot inputs of `tsch_rx_slot`: collaborator behavior during the
slot.  `ringFull` is `ringbufindex_peek_put(&input_ringbuf) == -1`;
`pendingAtStart` counts the stale packets the initial drain loop pulls
from the radio; `parseHeaderLen` is the `frame802154_parse` result;
`rxMinusExpected` is `rx_start_time - expected_rx_time`, modelled from
the spec because the `RTIMER_CLOCK_DIFF` macro lives in a header
outside this repository (spec 4.7 step 9: the estimated drift is
`rx_start` minus the expected RX instant). -/
structure RxSlotIn where
  ringFull : Bool
  pendingAtStart : Nat
  packetSeen : Bool
  pendingAfterPacket : Bool
  parseHeaderLen : Nat
  frameVersion2012 : Bool
  frameTypeBeacon : Bool
  destPanIdOk : Bool
  extractLinkaddrOk : Bool
  destIsNodeOrBroadcast : Bool
  ackRequired : Bool
  eackCreateLen : Nat
  srcNbrKnown : Bool
  srcIsTimeSource : Bool
  rxMinusExpected : Int
deriving Repr, DecidableEq

/-- Observable outcome of one run of `tsch_rx_slot`. -/
structure RxSlotOut where
  inputQueueDrop : Nat
  radioReads : Nat
  radioTouched : Bool
  estimatedDrift : Option Int
  driftCorrection : Int
  driftUsed : Bool
  lastSyncAsn : Nat
  timesyncArg : Option (Int × Int)
  keepaliveScheduled : Bool
  ringCommitted : Bool
  ackTransmitted : Bool
deriving Repr, DecidableEq

/-- Source `tsch_rx_slot` (lines 829-1146) in the embedded
configuration (`GUARD_BEACON` disabled, so the `static` flag `is_gb`
stays 0; `LLSEC802154_ENABLED` disabled).  When the input ring is full
(line 854) only the drop counter moves; otherwise the slot drains stale
pending packets, listens, reads a detected packet, validates it, sends
the enhanced ACK when requested, runs the beacon timesync when the
source is a time-source neighbor, and commits the reserved ring slot.
The drop counter is logged and reset at the end of every slot that
reserved a ring entry (lines 1134-1140). -/
def tsch_rx_slot (removeJitter : Bool) (measurementError : Int)
    (g : RxGlobals) (i : RxSlotIn) : RxSlotOut :=
  if i.ringFull then
    { inputQueueDrop := g.inputQueueDrop + 1
      radioReads := 0
      radioTouched := false
      estimatedDrift := none
      driftCorrection := g.driftCorrection
      driftUsed := g.driftUsed
      lastSyncAsn := g.lastSyncAsn
      timesyncArg := none
      keepaliveScheduled := false
      ringCommitted := false
      ackTransmitted := false }
  else
    let base : RxSlotOut :=
      { inputQueueDrop := 0
        radioReads := i.pendingAtStart
        radioTouched := true
        estimatedDrift := none
        driftCorrection := g.driftCorrection
        driftUsed := g.driftUsed
        lastSyncAsn := g.lastSyncAsn
        timesyncArg := none
        keepaliveScheduled := false
        ringCommitted := false
        ackTransmitted := false }
    if ¬(i.packetSeen = true) then
      base
    else if ¬(i.pendingAfterPacket = true) then
      base
    else
      let reads := i.pendingAtStart + 1
      let is_eb := decide (0 < i.parseHeaderLen) && i.frameVersion2012 &&
        i.frameTypeBeacon
      let frame_valid := decide (0 < i.parseHeaderLen) && i.destPanIdOk &&
        i.extractLinkaddrOk
      if frame_valid = true then
        if i.destIsNodeOrBroadcast = true then
          let estimated_drift :=
            jitter_clamp removeJitter measurementError i.rxMinusExpected
          let ackTx := i.ackRequired && decide (0 < i.eackCreateLen)
          if i.srcNbrKnown && i.srcIsTimeSource && is_eb then
            let since_last_timesync := (g.asn : Int) - (g.lastSyncAsn : Int)
            { inputQueueDrop := 0
              radioReads := reads
              radioTouched := true
              estimatedDrift := some estimated_drift
              driftCorrection := -estimated_drift
              driftUsed := true
              lastSyncAsn := g.asn
              timesyncArg := some (since_last_timesync, -estimated_drift)
              keepaliveScheduled := true
              ringCommitted := true
              ackTransmitted := ackTx }
          else
            { base with
              radioReads := reads
              estimatedDrift := some estimated_drift
              ringCommitted := true
              ackTransmitted := ackTx }
        else
          { base with radioReads := reads }
      else
        { base with radioReads := reads }

/-- Concrete RX globals: ASN 2000, last sync at ASN 1900, five drops
already accumulated on the counter. -/
def rxG : RxGlobals :=
  { asn := 2000
    lastSyncAsn := 1900
    driftCorrection := 0
    driftUsed := false
    inputQueueDrop := 5 }

/-- Concrete RX input: the input ring is full while the radio still
holds one stale pending packet. -/
def rxFullPending : RxSlotIn :=
  { ringFull := true
    pendingAtStart := 1
    packetSeen := false
    pendingAfterPacket := false
    parseHeaderLen := 0
    frameVersion2012 := false
    frameTypeBeacon := false
    destPanIdOk := false
    extractLinkaddrOk := false
    destIsNodeOrBroadcast := false
    ackRequired := false
    eackCreateLen := 0
    srcNbrKnown := false
    srcIsTimeSource := false
    rxMinusExpected := 0 }

/-- C2 counterexample: with the input ring full and one pending packet
in the radio, the RX slot increments the drop counter but issues no
radio read at all — the drain loop sits in the branch that only runs
when a ring slot was reserved, so the pending packet is NOT drained. -/
theorem rx_slot_ring_full_claim_false :
    ¬((tsch_rx_slot false 0 rxG rxFullPending).inputQueueDrop =
        rxG.inputQueueDrop + 1 ∧
      rxFullPending.pendingAtStart ≤
        (tsch_rx_slot false 0 rxG rxFullPending).radioReads) := by
  decide

/-- C2 amended: when the input ring is full at peek-put, the RX
sub-procedure increments the dropped-packet counter and skips the rest
of the slot without touching the radio; the radio drain happens only in
slots where an input-ring entry was reserved. -/
theorem rx_slot_ring_full_drops_and_skips (removeJitter : Bool)
    (measurementError : Int) (g : RxGlobals) (i : RxSlotIn)
    (h : i.ringFull = true) :
    tsch_rx_slot removeJitter measurementError g i =
      { inputQueueDrop := g.inputQueueDrop + 1
        radioReads := 0
        radioTouched := false
        estimatedDrift := none
        driftCorrection := g.driftCorrection
        driftUsed := g.driftUsed
        lastSyncAsn := g.lastSyncAsn
        timesyncArg := none
        keepaliveScheduled := false
        ringCommitted := false
        ackTransmitted := false } := by
  simp [tsch_rx_slot, h]

/-- C2 witness: the full-ring RX outcome at the concrete input. -/
theorem rx_slot_ring_full_drops_and_skips_witness :
    tsch_rx_slot false 0 rxG rxFullPending =
      { inputQueueDrop := 6
        radioReads := 0
        radioTouched := false
        estimatedDrift := none
        driftCorrection := 0
        driftUsed := false
        lastSyncAsn := 1900
        timesyncArg := none
        keepaliveScheduled := false
        ringCommitted := false
        ackTransmitted := false } :=
  rx_slot_ring_full_drops_and_skips false 0 rxG rxFullPending rfl

/-- C7: on an RX slot receiving a valid frame addressed to this node
(or broadcast) from a time-source neighbor, where the frame is a beacon
(frame version IEEE802154E-2012 and frame type BEACON), the adaptive
timesync receives the negated estimated drift together with the slot
count since the last sync, `last_sync_asn` is set to the current ASN, a
keep-alive is scheduled, and the input-ring slot is committed. -/
theorem rx_beacon_timesync (removeJitter : Bool) (measurementError : Int)
    (g : RxGlobals) (i : RxSlotIn)
    (h0 : i.ringFull = false) (h1 : i.packetSeen = true)
    (h2 : i.pendingAfterPacket = true) (h3 : 0 < i.parseHeaderLen)
    (h4 : i.frameVersion2012 = true) (h5 : i.frameTypeBeacon = true)
    (h6 : i.destPanIdOk = true) (h7 : i.extractLinkaddrOk = true)
    (h8 : i.destIsNodeOrBroadcast = true) (h9 : i.srcNbrKnown = true)
    (h10 : i.srcIsTimeSource = true) :
    (tsch_rx_slot removeJitter measurementError g i).estimatedDrift =
      some (jitter_clamp removeJitter measurementError i.rxMinusExpected) ∧
    (tsch_rx_slot removeJitter measurementError g i).driftCorrection =
      -(jitter_clamp removeJitter measurementError i.rxMinusExpected) ∧
    (tsch_rx_slot removeJitter measurementError g i).timesyncArg =
      some ((g.asn : Int) - (g.lastSyncAsn : Int),
        -(jitter_clamp removeJitter measurementError i.rxMinusExpected)) ∧
    (tsch_rx_slot removeJitter measurementError g i).driftUsed = true ∧
    (tsch_rx_slot removeJitter measurementError g i).lastSyncAsn = g.asn ∧
    (tsch_rx_slot removeJitter measurementError g i).keepaliveScheduled = true ∧
    (tsch_rx_slot removeJitter measurementError g i).ringCommitted = true := by
  simp [tsch_rx_slot, h0, h1, h2, h3, h4, h5, h6, h7, h8, h9, h10]

/-- Concrete RX input: a beacon from a known time-source neighbor,
addressed to this node, arriving 7 ticks after the expected instant. -/
def rxBeacon7 : RxSlotIn :=
  { ringFull := false
    pendingAtStart := 0
    packetSeen := true
    pendingAfterPacket := true
    parseHeaderLen := 23
    frameVersion2012 := true
    frameTypeBeacon := true
    destPanIdOk := true
    extractLinkaddrOk := true
    destIsNodeOrBroadcast := true
    ackRequired := false
    eackCreateLen := 0
    srcNbrKnown := true
    srcIsTimeSource := true
    rxMinusExpected := 7 }

/-- C7 witness: for an arrival offset of +7 ticks (jitter clamp with a
zero measurement error) the estimated drift is +7, the timesync call
receives the 100 slots elapsed and -7, `last_sync_asn` becomes the
current ASN 2000, and the input is committed. -/
theorem rx_beacon_timesync_witness :
    (tsch_rx_slot true 0 rxG rxBeacon7).estimatedDrift = some 7 ∧
    (tsch_rx_slot true 0 rxG rxBeacon7).driftCorrection = -7 ∧
    (tsch_rx_slot true 0 rxG rxBeacon7).timesyncArg = some (100, -7) ∧
    (tsch_rx_slot true 0 rxG rxBeacon7).driftUsed = true ∧
    (tsch_rx_slot true 0 rxG rxBeacon7).lastSyncAsn = 2000 ∧
    (tsch_rx_slot true 0 rxG rxBeacon7).keepaliveScheduled = true ∧
    (tsch_rx_slot true 0 rxG rxBeacon7).ringCommitted = true := by
  have h := rx_beacon_timesync true 0 rxG rxBeacon7 rfl rfl rfl (by decide)
    rfl rfl rfl rfl rfl rfl rfl
  simpa [rxG, rxBeacon7, jitter_clamp] using h

/-- State threaded through the executor rescheduling loop:
`tsch_current_asn`, `current_slot_start`, `drift_correction`,
`is_drift_correction_used`. -/
structure ReschedState where
  asn : Nat
  slotStart : Nat
  driftCorrection : Int
  driftUsed : Bool
deriving Repr, DecidableEq

/-- One iteration of the executor rescheduling loop body (lines
1237-1262): query the schedule (`sched = none` models a NULL next link,
in which case `timeslot_diff` defaults to 1), advance the ASN, compute
the wake-up interval `timeslot_diff * ts_timeslot_length +
drift_correction` as a wrapping `rtimer_clock_t`, consume the drift
correction, and advance `current_slot_start` by the interval plus the
external adaptive compensation of that interval.  The increment macro
`TSCH_ASN_INC` lives in a header outside this repository and is
modelled from the spec as addition on the slot counter. -/
def executor_reschedule_iter (N tsLen : Nat) (compensate : Nat → Int)
    (sched : Option Nat) (s : ReschedState) : ReschedState × Nat :=
  let timeslot_diff : Nat := match sched with
    | none => 1
    | some d => d
  let time_to_next_active_slot : Nat :=
    wrapU N ((timeslot_diff : Int) * (tsLen : Int) + s.driftCorrection)
  let slot1 := (s.slotStart + time_to_next_active_slot) % N
  let slot2 := wrapU N ((slot1 : Int) + compensate time_to_next_active_slot)
  ({ asn := s.asn + timeslot_diff
     slotStart := slot2
     driftCorrection := 0
     driftUsed := false }, timeslot_diff)

lemma wrapU_cast (N : Nat) (hN : 0 < N) (x : Int) :
    ((wrapU N x : Nat) : Int) = x % (N : Int) := by
  unfold wrapU
  exact Int.toNat_of_nonneg
    (Int.emod_nonneg x (Int.natCast_ne_zero.mpr hN.ne'))

lemma emod_absorb (n x c : Int) : (x % n + c) % n = (x + c) % n := by
  conv_lhs => rw [Int.add_emod]
  conv_rhs => rw [Int.add_emod]
  rw [Int.emod_emod_of_dvd x dvd_rfl]

lemma slot_advance_eq (N : Nat) (hN : 0 < N) (a : Nat) (y c : Int) :
    wrapU N ((((a + wrapU N y) % N : Nat) : Int) + c) =
      wrapU N ((a : Int) + y + c) := by
  have hmain : ((((a + wrapU N y) % N : Nat) : Int) + c) % (N : Int) =
      ((a : Int) + y + c) % (N : Int) := by
    rw [Int.natCast_mod, Nat.cast_add, wrapU_cast N hN y, emod_absorb]
    have hcomm : (a : Int) + y % (N : Int) + c =
        y % (N : Int) + ((a : Int) + c) := by ring
    rw [hcomm, emod_absorb]
    ring_nf
  exact congrArg Int.toNat hmain

/-- C4: each iteration of the executor rescheduling loop advances the
ASN by exactly the `timeslot_diff` it obtained (which is at least 1,
and defaults to 1 when the schedule returned no next link), advances
`current_slot_start` by exactly `timeslot_diff * ts_timeslot_length +
drift_correction` plus the adaptive compensation of that interval
(modulo the timer width), and consumes the drift correction, leaving it
0.  `timeslot_diff ≥ 1` for a scheduled link rests on the external
schedule contract `hsched`. -/
theorem executor_iter_advance (N tsLen : Nat) (compensate : Nat → Int)
    (sched : Option Nat) (s : ReschedState) (hN : 0 < N)
    (hsched : ∀ d, sched = some d → 1 ≤ d) :
    1 ≤ (executor_reschedule_iter N tsLen compensate sched s).2 ∧
    (sched = none → (executor_reschedule_iter N tsLen compensate sched s).2 = 1) ∧
    (executor_reschedule_iter N tsLen compensate sched s).1.asn =
      s.asn + (executor_reschedule_iter N tsLen compensate sched s).2 ∧
    (executor_reschedule_iter N tsLen compensate sched s).1.slotStart =
      wrapU N ((s.slotStart : Int) +
        (((executor_reschedule_iter N tsLen compensate sched s).2 : Int) *
            (tsLen : Int) + s.driftCorrection) +
        compensate (wrapU N
          (((executor_reschedule_iter N tsLen compensate sched s).2 : Int) *
              (tsLen : Int) + s.driftCorrection))) ∧
    (executor_reschedule_iter N tsLen compensate sched s).1.driftCorrection = 0 ∧
    (executor_reschedule_iter N tsLen compensate sched s).1.driftUsed = false := by
  cases sched with
  | none =>
      exact ⟨le_refl 1, fun _ => rfl, rfl,
        slot_advance_eq N hN s.slotStart _ _, rfl, rfl⟩
  | some d =>
      exact ⟨hsched d rfl, fun h => absurd h (by simp), rfl,
        slot_advance_eq N hN s.slotStart _ _, rfl, rfl⟩

/-- C4 witness: with a 16-bit timer, timeslot length 328 ticks, no
adaptive compensation, a pending drift of 12 ticks, and the schedule
answering 3 slots, one iteration advances the ASN from 1000 to 1003,
the slot start from 5000 to 5996 = 5000 + 3*328 + 12, and resets the
drift correction. -/
theorem executor_iter_advance_witness :
    1 ≤ (executor_reschedule_iter 65536 328 (fun _ => 0) (some 3)
      { asn := 1000, slotStart := 5000, driftCorrection := 12,
        driftUsed := true }).2 ∧
    (executor_reschedule_iter 65536 328 (fun _ => 0) (some 3)
      { asn := 1000, slotStart := 5000, driftCorrection := 12,
        driftUsed := true }).1.asn =
      1000 + (executor_reschedule_iter 65536 328 (fun _ => 0) (some 3)
        { asn := 1000, slotStart := 5000, driftCorrection := 12,
          driftUsed := true }).2 ∧
    (executor_reschedule_iter 65536 328 (fun _ => 0) (some 3)
      { asn := 1000, slotStart := 5000, driftCorrection := 12,
        driftUsed := true }).1.driftCorrection = 0 := by
  have h := executor_iter_advance 65536 328 (fun _ => 0) (some 3)
    { asn := 1000, slotStart := 5000, driftCorrection := 12, driftUsed := true }
    (by norm_num) (by intro d hd; injection hd with h; omega)
  exact ⟨h.1, h.2.2.1, h.2.2.2.2.1⟩

/-- Modelled from the spec: `TSCH_ASN_DIFF` (tsch-asn.h, outside this
repository) yields the signed slot delta between two ASNs. -/
def tsch_asn_diff (a b : Nat) : Int := (a : Int) - (b : Int)

/-- Modelled from the spec: `TSCH_CLOCK_TO_SLOTS` (tsch-private.h,
outside this repository) converts a system-clock duration
(`clockTicks` ticks of a `clockSecond`-Hz clock) into a count of slots
of `tsLen` rtimer ticks. -/
def tsch_clock_to_slots (rtimerSecond clockSecond clockTicks tsLen : Nat) : Nat :=
  clockTicks * rtimerSecond / clockSecond / tsLen

/-- Result of the end-of-slot phase of the executor (lines 1216-1265). -/
structure TailResult where
  disassociated : Bool
  lastTimesourceNeighborCleared : Bool
  finalState : ReschedState
  scheduleAttempts : Nat
deriving Repr, DecidableEq

/-- The reschedule do-while loop (lines 1237-1263), driven by an oracle
list: each element is the schedule answer for that iteration and
whether `tsch_schedule_slot_operation` succeeded in arming the timer.
Runs until a successful arming, bounded by the oracle list; returns the
final state and the number of iterations performed. -/
def executor_resched_loop (N tsLen : Nat) (compensate : Nat → Int) :
    List (Option Nat × Bool) → ReschedState → ReschedState × Nat
  | [], s => (s, 0)
  | (sched, armed) :: rest, s =>
      let s1 := (executor_reschedule_iter N tsLen compensate sched s).1
      if armed then (s1, 1)
      else
        let r := executor_resched_loop N tsLen compensate rest s1
        (r.1, r.2 + 1)

lemma resched_loop_attempts_pos (N tsLen : Nat) (compensate : Nat → Int)
    (steps : List (Option Nat × Bool)) (s : ReschedState) (h : steps ≠ []) :
    1 ≤ (executor_resched_loop N tsLen compensate steps s).2 := by
  cases steps with
  | nil => exact absurd rfl h
  | cons p rest =>
      obtain ⟨sched, armed⟩ := p
      simp only [executor_resched_loop]
      split <;> simp

/-- End-of-slot phase of the executor (lines 1216-1265): the
desynchronization check, then either disassociation (clearing
`last_timesource_neighbor` and halting) or the rescheduling loop.
`desyncThresholdClock` is `TSCH_DESYNC_THRESHOLD` in system-clock
ticks. -/
def executor_post_slot (isCoordinator : Bool)
    (rtimerSecond clockSecond desyncThresholdClock : Nat)
    (N tsLen : Nat) (compensate : Nat → Int)
    (steps : List (Option Nat × Bool)) (lastSyncAsn : Nat) (s : ReschedState) :
    TailResult :=
  if isCoordinator = false ∧
      tsch_asn_diff s.asn lastSyncAsn >
        100 * (tsch_clock_to_slots rtimerSecond clockSecond
          (desyncThresholdClock / 100) tsLen : Int) then
    { disassociated := true
      lastTimesourceNeighborCleared := true
      finalState := s
      scheduleAttempts := 0 }
  else
    let r := executor_resched_loop N tsLen compensate steps s
    { disassociated := false
      lastTimesourceNeighborCleared := false
      finalState := r.1
      scheduleAttempts := r.2 }

/-- C8: on a non-coordinator node the executor disassociates (clearing
`last_timesource_neighbor` and scheduling no next slot) exactly when
`DIFF(current_asn, last_sync_asn)` strictly exceeds
`100 * TSCH_CLOCK_TO_SLOTS(TSCH_DESYNC_THRESHOLD / 100,
ts_timeslot_length)`; otherwise it enters the rescheduling loop and
attempts to arm the next wake-up at least once. -/
theorem executor_desync_check (isCoordinator : Bool)
    (rtimerSecond clockSecond desyncThresholdClock N tsLen : Nat)
    (compensate : Nat → Int) (steps : List (Option Nat × Bool))
    (lastSyncAsn : Nat) (s : ReschedState) (hsteps : steps ≠ []) :
    ((executor_post_slot isCoordinator rtimerSecond clockSecond
        desyncThresholdClock N tsLen compensate steps lastSyncAsn
        s).disassociated = true ↔
      (isCoordinator = false ∧
        tsch_asn_diff s.asn lastSyncAsn >
          100 * (tsch_clock_to_slots rtimerSecond clockSecond
            (desyncThresholdClock / 100) tsLen : Int))) ∧
    ((executor_post_slot isCoordinator rtimerSecond clockSecond
        desyncThresholdClock N tsLen compensate steps lastSyncAsn
        s).disassociated = true →
      (executor_post_slot isCoordinator rtimerSecond clockSecond
        desyncThresholdClock N tsLen compensate steps lastSyncAsn
        s).lastTimesourceNeighborCleared = true ∧
      (executor_post_slot isCoordinator rtimerSecond clockSecond
        desyncThresholdClock N tsLen compensate steps lastSyncAsn
        s).scheduleAttempts = 0) ∧
    ((executor_post_slot isCoordinator rtimerSecond clockSecond
        desyncThresholdClock N tsLen compensate steps lastSyncAsn
        s).disassociated = false →
      1 ≤ (executor_post_slot isCoordinator rtimerSecond clockSecond
        desyncThresholdClock N tsLen compensate steps lastSyncAsn
        s).scheduleAttempts) := by
  by_cases hcond : isCoordinator = false ∧
      tsch_asn_diff s.asn lastSyncAsn >
        100 * (tsch_clock_to_slots rtimerSecond clockSecond
          (desyncThresholdClock / 100) tsLen : Int)
  · simp [executor_post_slot, hcond]
  · simp only [executor_post_slot, if_neg hcond]
    refine ⟨by simpa using hcond, by simp, fun _ => ?_⟩
    exact resched_loop_attempts_pos N tsLen compensate steps s hsteps

/-- C8 witness: a non-coordinator 3000 slots past its last sync, with a
desync threshold worth 2400 slots, disassociates and clears its time
source. -/
theorem executor_desync_check_witness :
    (executor_post_slot false 32768 128 3200 65536 328 (fun _ => 0)
      [(none, true)] 2000
      { asn := 5000, slotStart := 0, driftCorrection := 0,
        driftUsed := false }).disassociated = true ∧
    (executor_post_slot false 32768 128 3200 65536 328 (fun _ => 0)
      [(none, true)] 2000
      { asn := 5000, slotStart := 0, driftCorrection := 0,
        driftUsed := false }).lastTimesourceNeighborCleared = true := by
  have h := executor_desync_check false 32768 128 3200 65536 328 (fun _ => 0)
    [(none, true)] 2000
    { asn := 5000, slotStart := 0, driftCorrection := 0, driftUsed := false }
    (by simp)
  have hd := h.1.mpr ⟨rfl, by decide⟩
  exact ⟨hd, (h.2.1 hd).1⟩

end TschSlotOp
